import Mathlib

/-!
Shallow embedding of the rye self-management subsystem
(`src/rye/src/cli/rye.rs`): self-update with checksum verification,
first-time installation, uninstallation and automatic self-installation.

Fallible external effects (network downloads, interactive confirmation,
individual filesystem operations, the `self_replace` crate) are modelled by
explicit environment records whose fields give each effect's outcome; the
on-disk state touched by the subsystem is an explicit `FS` record threaded
through every operation.  Traces record the observable events the
specification talks about (prompt shown, self-replace invoked, shim
synchronisation target, checksum warnings).
-/

namespace Rye

/-- Errors: `QuietExit(code)` is the distinguished quiet cancellation signal
(`crate::utils::QuietExit`); `message` is an ordinary `anyhow` error;
`ctx` models `with_context`, wrapping an inner error. -/
inductive Err where
  | quietExit (code : Nat)
  | message (msg : String)
  | ctx (outer : String) (inner : Err)
deriving DecidableEq, Repr

/-- The on-disk state managed by the subsystem: the application directory
(`RYE_HOME`), its `shims/`, `self/`, `py/`, `pip-tools/` subdirectories, the
`env` file, and the bytes of the running executable's on-disk image. -/
structure FS where
  appDirExists : Bool
  shimDirExists : Bool
  /-- names of the files directly inside `shims/` -/
  shimFiles : List String
  /-- `shims/rye` (with platform executable extension) is a file -/
  ryeShimIsFile : Bool
  ryeShimBytes : Option (List Nat)
  selfDirExists : Bool
  pyDirExists : Bool
  pipToolsDirExists : Bool
  /-- `some content` when the `env` file exists -/
  envFile : Option String
  /-- bytes at the running executable's canonical path (the primary binary) -/
  primaryBinary : List Nat
deriving DecidableEq, Repr

/-- `DEFAULT_HOME` on unix. -/
def DEFAULT_HOME : String := "$HOME/.rye"

def GITHUB_REPO : String := "https://github.com/mitsuhiko/rye"

/-- `std::env::consts::ARCH`/`OS`; the unix (linux) configuration is the one
modelled throughout, matching the `cfg!(unix)` branches of the source. -/
def ARCH : String := "x86_64"

def OS : String := "linux"

/-- `format!("rye-{ARCH}-{OS}")` -/
def releaseBinary : String := "rye-" ++ ARCH ++ "-" ++ OS

/-- `if cfg!(unix) { ".gz" } else { ".exe" }` -/
def releaseExt : String := ".gz"

/-- The release-asset URL built in `update`. -/
def releaseUrl (version : String) : String :=
  if version == "latest" then
    GITHUB_REPO ++ "/releases/latest/download/" ++ releaseBinary ++ releaseExt
  else
    GITHUB_REPO ++ "/releases/download/" ++ version ++ "/" ++ releaseBinary ++ releaseExt

/-- `format!("{}.sha256", url)` -/
def sha256Url (version : String) : String := releaseUrl version ++ ".sha256"

/-- ASCII whitespace, as used by the checksum sidecar normalization. -/
def isAsciiWhitespace (c : Char) : Bool :=
  c == ' ' || c == '\t' || c == '\n' || c == '\r'

/-- `str::trim` (restricted to ASCII whitespace, which is all a checksum
sidecar contains). -/
def trimString (s : String) : String :=
  ⟨((s.data.dropWhile isAsciiWhitespace).reverse.dropWhile
      isAsciiWhitespace).reverse⟩

/-- First whitespace-delimited token of a string (empty when none). -/
def firstToken (s : String) : String :=
  ⟨s.data.takeWhile (fun c => !isAsciiWhitespace c)⟩

/-- ASCII lowercasing of one character (`eq_ignore_ascii_case`). -/
def lowerChar (c : Char) : Char :=
  if 65 ≤ c.toNat ∧ c.toNat ≤ 90 then Char.ofNat (c.toNat + 32) else c

/-- ASCII lowercasing of a string. -/
def lowerString (s : String) : String := ⟨s.data.map lowerChar⟩

/-- Modelled from the spec: `check_checksum` lives in `crate::utils`, which is
not part of the shown sources.  Per the spec, the downloaded payload's
cryptographic hash must equal the checksum after case/whitespace
normalization, the sidecar content being a hex digest possibly followed by
whitespace/filename; mismatch is a hard failure.  The SHA-256 hex digest
itself is abstracted as the function `sha256Hex` supplied by the caller. -/
def check_checksum (sha256Hex : List Nat → String) (content : List Nat)
    (checksum : String) : Except Err Unit :=
  if lowerString (sha256Hex content) = lowerString (firstToken checksum) then
    Except.ok ()
  else
    Except.error (Err.message ("hash mismatch: expected " ++ checksum))

/-- Outcomes of the external effects reached by the `update` flow:
`downloadUrl` models `crate::bootstrap::download_url` (any failure, including
a 404 on the main asset, is an `Except.error`); `downloadUrlIgnore404` models
`download_url_ignore_404`, whose `Except.ok none` outcome is the 404-style
"not found" on the checksum sidecar; `utf8Lossy` is `String::from_utf8_lossy`
on the sidecar bytes; `gzDecode` is the unix gzip decode of the payload;
`canonicalExe` is the value of `env::current_exe()?.canonicalize()?` taken
inside `update_exe_and_shims` before `self_replace` runs. -/
structure UpdateEnv where
  currentExeOk : Bool
  downloadUrl : String → Except Err (List Nat)
  downloadUrlIgnore404 : String → Except Err (Option (List Nat))
  utf8Lossy : List Nat → String
  sha256Hex : List Nat → String
  tempFileOk : Bool
  gzDecode : List Nat → Except Err (List Nat)
  tmpWriteOk : Bool
  appDirCanonOk : Bool
  currentExeCanonOk : Bool
  canonicalExe : String
  selfReplaceOk : Bool
  updateCoreShimsOk : Bool
  versionCmdOk : Bool

/-- Events of `update_exe_and_shims`: whether `self_replace::self_replace`
was invoked, and, when `update_core_shims` was invoked, the executable path
it was asked to point the shims at. -/
structure ReplaceTrace where
  selfReplaceInvoked : Bool
  shimSyncTarget : Option String
deriving DecidableEq, Repr

structure ReplaceOut where
  result : Except Err Unit
  fs : FS
  trace : ReplaceTrace
deriving Repr

/-- `update_exe_and_shims`: canonicalize the app dir and the current
executable path, invoke `self_replace` on the new executable, then — only
when the shim directory exists — run `update_core_shims` pointing the shims
at the previously captured canonical executable path. -/
def update_exe_and_shims (newExeBytes : List Nat) (env : UpdateEnv) (fs : FS) :
    ReplaceOut :=
  if env.appDirCanonOk = false then
    ⟨Except.error (Err.message "canonicalize app dir failed"), fs, ⟨false, none⟩⟩
  else if env.currentExeCanonOk = false then
    ⟨Except.error (Err.message "canonicalize current exe failed"), fs, ⟨false, none⟩⟩
  else
    -- current_exe is canonicalized here, before self_replace runs
    let current_exe := env.canonicalExe
    if env.selfReplaceOk = false then
      ⟨Except.error (Err.message "self replace failed"), fs, ⟨true, none⟩⟩
    else
      let fs1 : FS := { fs with primaryBinary := newExeBytes }
      if fs1.shimDirExists then
        if env.updateCoreShimsOk then
          ⟨Except.ok (), fs1, ⟨true, some current_exe⟩⟩
        else
          ⟨Except.error (Err.message "update core shims failed"), fs1,
            ⟨true, some current_exe⟩⟩
      else
        ⟨Except.ok (), fs1, ⟨true, none⟩⟩

/-- Events of the release-download `update` path. -/
structure UpdateTrace where
  /-- `check_checksum` was invoked -/
  checksumChecked : Bool
  /-- the "Checksum check skipped (no hash available)" warning was emitted -/
  checksumSkippedMsg : Bool
  rep : ReplaceTrace
deriving DecidableEq, Repr

structure UpdateOut where
  result : Except Err Unit
  fs : FS
  trace : UpdateTrace
deriving Repr

/-- Continuation of `update` after the download/verification stage: write the
(gzip-decoded, on unix) payload to a fresh temporary file, call
`update_exe_and_shims`, then run `current_exe --version`. -/
def updateFinish (bytes : List Nat) (env : UpdateEnv) (fs : FS)
    (tr : UpdateTrace) : UpdateOut :=
  if env.tempFileOk = false then
    ⟨Except.error (Err.message "tempfile failed"), fs, tr⟩
  else
    match env.gzDecode bytes with
    | Except.error e => ⟨Except.error e, fs, tr⟩
    | Except.ok decoded =>
      if env.tmpWriteOk = false then
        ⟨Except.error (Err.message "write tempfile failed"), fs, tr⟩
      else
        let out := update_exe_and_shims decoded env fs
        let tr1 : UpdateTrace := { tr with rep := out.trace }
        match out.result with
        | Except.error e => ⟨Except.error e, out.fs, tr1⟩
        | Except.ok () =>
          if env.versionCmdOk then ⟨Except.ok (), out.fs, tr1⟩
          else ⟨Except.error (Err.message "version command failed"), out.fs, tr1⟩

/-- The release-download branch of `update` (no `--rev`/`--tag`): read the
current exe, download the asset, fetch the sidecar checksum ignoring 404,
verify when a checksum was obtained (warn and skip otherwise), then replace
the executable and synchronise the shims. -/
def update (version : String) (env : UpdateEnv) (fs : FS) : UpdateOut :=
  if env.currentExeOk = false then
    ⟨Except.error (Err.message "current_exe failed"), fs, ⟨false, false, false, none⟩⟩
  else
    match env.downloadUrl (releaseUrl version) with
    | Except.error e =>
      ⟨Except.error (Err.ctx ("could not download release " ++ version
          ++ " for this platform") e), fs, ⟨false, false, false, none⟩⟩
    | Except.ok bytes =>
      match env.downloadUrlIgnore404 (sha256Url version) with
      | Except.error e => ⟨Except.error e, fs, ⟨false, false, false, none⟩⟩
      | Except.ok (some sha256Bytes) =>
        let checksum := env.utf8Lossy sha256Bytes
        match check_checksum env.sha256Hex bytes (trimString checksum) with
        | Except.error e =>
          ⟨Except.error (Err.ctx ("hash check of " ++ releaseUrl version
              ++ " failed") e), fs, ⟨true, false, false, none⟩⟩
        | Except.ok () => updateFinish bytes env fs ⟨true, false, false, none⟩
      | Except.ok none => updateFinish bytes env fs ⟨false, true, false, none⟩

/-- `InstallMode` of `perform_install`. -/
inductive InstallMode where
  | Default
  | NoPrompts
  | AutoInstall
deriving DecidableEq, Repr

/-- The guard block of `UNIX_ENV_FILE`: a shell `case` on `":${PATH}:"` whose
first arm matches a `PATH` already containing the shim directory and does
nothing (`;;`), and whose fallback arm prepends the shim directory.  Rendered
as a function of the template variable `rye_home`; `{%-` trims the preceding
newline, so each kept template line is one rendered line. -/
def pathGuardLines (rye_home : String) : List String :=
  ["case \":${PATH}:\" in",
   "  *:\"" ++ rye_home ++ "/shims\":*)",
   "    ;;",
   "  *)",
   "    export PATH=\"" ++ rye_home ++ "/shims:$PATH\"",
   "    ;;",
   "esac"]

/-- Rendered lines of the full `UNIX_ENV_FILE` template: blank line, comment,
the conditional export, the guard block, trailing blank line. -/
def unixEnvFileLines (custom_home : Bool) (rye_home : String) : List String :=
  ["",
   "# rye shell setup"]
  ++ (if custom_home then ["export RYE_HOME=\"" ++ rye_home ++ "\""] else [])
  ++ pathGuardLines rye_home
  ++ [""]

/-- `render!(UNIX_ENV_FILE, custom_home, rye_home)` as a single string. -/
def render_unix_env_file (custom_home : Bool) (rye_home : String) : String :=
  String.intercalate "\n" (unixEnvFileLines custom_home rye_home)

/-- Outcomes of the external effects reached by `perform_install`:
the interactive confirmation (`dialoguer::Confirm`, `Except.ok false` meaning
the user declined), the `RYE_HOME` environment variable, and the fallible
filesystem / collaborator calls of the body. -/
structure InstallEnv where
  confirmAnswer : Except Err Bool
  createDirOk : Bool
  removeTargetErr : Option Err
  copyErr : Option Err
  ryeHomeVar : Option String
  writeEnvErr : Option Err
  registerToolchainResult : Except Err String
  ensureSelfVenvResult : Except Err String
  pathHasShims : Bool

structure InstallTrace where
  /-- the "Continue?" confirmation prompt was put to the user -/
  promptShown : Bool
  /-- the auto-install explanation block was printed -/
  autoContextShown : Bool
deriving DecidableEq, Repr

structure InstallOut where
  result : Except Err Unit
  fs : FS
  trace : InstallTrace
deriving Repr

/-- Tail of `perform_install`: `ensure_self_venv`, then the read-only PATH
advice which never fails the flow. -/
def installFinish (env : InstallEnv) (fs : FS) (tr : InstallTrace) :
    InstallOut :=
  match env.ensureSelfVenvResult with
  | Except.error e => ⟨Except.error e, fs, tr⟩
  | Except.ok _ => ⟨Except.ok (), fs, tr⟩

/-- Body of `perform_install` after the confirmation point: create the shim
directory (result ignored), delete a stale file at the shim target, copy the
running executable to the target, write the rendered `env` file (unix), then
optionally register a toolchain before bootstrapping the internal venv. -/
def installBody (toolchainPath : Option String) (env : InstallEnv) (fs : FS)
    (tr : InstallTrace) : InstallOut :=
  -- fs::create_dir_all(&shims).ok();
  let fs1 : FS :=
    if env.createDirOk then { fs with appDirExists := true, shimDirExists := true }
    else fs
  -- if target.is_file() { fs::remove_file(&target)?; }
  match (if fs1.ryeShimIsFile then env.removeTargetErr else none) with
  | some e => ⟨Except.error e, fs1, tr⟩
  | none =>
    let fs2 : FS :=
      if fs1.ryeShimIsFile then
        { fs1 with ryeShimIsFile := false, ryeShimBytes := none }
      else fs1
    -- fs::copy(exe, &target)?;
    match env.copyErr with
    | some e => ⟨Except.error e, fs2, tr⟩
    | none =>
      let fs3 : FS :=
        { fs2 with ryeShimIsFile := true, ryeShimBytes := some fs.primaryBinary }
      let custom_home := env.ryeHomeVar.isSome
      let rye_home := match env.ryeHomeVar with
        | some x => x
        | none => DEFAULT_HOME
      -- fs::write(app_dir.join("env"), render!(UNIX_ENV_FILE, ...))?;
      match env.writeEnvErr with
      | some e => ⟨Except.error e, fs3, tr⟩
      | none =>
        let fs4 : FS :=
          { fs3 with envFile := some (render_unix_env_file custom_home rye_home) }
        match toolchainPath with
        | some _ =>
          match env.registerToolchainResult with
          | Except.error e => ⟨Except.error e, fs4, tr⟩
          | Except.ok _ => installFinish env fs4 tr
        | none => installFinish env fs4 tr

/-- `perform_install`: greeting (plus extra context in `AutoInstall` mode),
then — unless the mode is `NoPrompts` — the "Continue?" confirmation, whose
refusal terminates the flow with `QuietExit(1)`; then the installation body. -/
def perform_install (mode : InstallMode) (toolchainPath : Option String)
    (env : InstallEnv) (fs : FS) : InstallOut :=
  let tr0 : InstallTrace :=
    ⟨false, match mode with | InstallMode.AutoInstall => true | _ => false⟩
  -- if !matches!(mode, InstallMode::NoPrompts) && !Confirm::new()...interact()?
  match mode with
  | InstallMode.NoPrompts => installBody toolchainPath env fs tr0
  | _ =>
    match env.confirmAnswer with
    | Except.error e => ⟨Except.error e, fs, { tr0 with promptShown := true }⟩
    | Except.ok false =>
      -- elog!("Installation cancelled!"); return Err(QuietExit(1).into());
      ⟨Except.error (Err.quietExit 1), fs, { tr0 with promptShown := true }⟩
    | Except.ok true => installBody toolchainPath env fs { tr0 with promptShown := true }

/-- `install` subcommand: `--yes` maps to `NoPrompts`, otherwise `Default`. -/
def install (yes : Bool) (toolchainPath : Option String) (env : InstallEnv)
    (fs : FS) : InstallOut :=
  perform_install (if yes then InstallMode.NoPrompts else InstallMode.Default)
    toolchainPath env fs

/-- `remove_dir_all_if_exists`: recursively delete a directory, a no-op when
it is not a directory; `isDir` is `path.is_dir()` and `removeResult` the
outcome of `fs::remove_dir_all` (propagated with `?` by the source). -/
def remove_dir_all_if_exists (isDir : Bool) (removeResult : Option Err) :
    Except Err Unit :=
  if isDir then
    match removeResult with
    | some e => Except.error e
    | none => Except.ok ()
  else Except.ok ()

/-- Outcomes of the external effects reached by `uninstall`: the interactive
confirmation, canonicalization of the exe/app-dir paths, the set of shim
files whose individual deletion fails (those deletions are `.ok()`-swallowed),
per-directory `remove_dir_all` outcomes, the `self_delete_outside_path`
outcome, and the truncation of the `env` file. -/
structure UninstallEnv where
  confirmAnswer : Except Err Bool
  canonOk : Bool
  shimDeleteFails : List String
  removeSelfErr : Option Err
  removePyErr : Option Err
  removePipToolsErr : Option Err
  exeInAppDir : Bool
  exeIsFile : Bool
  selfDeleteErr : Option Err
  removeShimsDirErr : Option Err
  truncateEnvErr : Option Err

structure UninstallOut where
  result : Except Err Unit
  fs : FS
deriving Repr

/-- Tail of the uninstall body: remove the shim directory itself, then
truncate (not delete) the `env` file. -/
def uninstallTail (env : UninstallEnv) (fs : FS) : UninstallOut :=
  match remove_dir_all_if_exists fs.shimDirExists env.removeShimsDirErr with
  | Except.error e => ⟨Except.error e, fs⟩
  | Except.ok () =>
    let fs5 : FS := { fs with shimDirExists := false, shimFiles := [] }
    match (if fs5.envFile.isSome then env.truncateEnvErr else none) with
    | some e => ⟨Except.error e, fs5⟩
    | none =>
      let fs6 : FS :=
        if fs5.envFile.isSome then { fs5 with envFile := some "" } else fs5
      ⟨Except.ok (), fs6⟩

/-- Body of `uninstall` once confirmed: when the app dir exists, delete every
file directly inside `shims/` swallowing individual failures, remove the
`self/`, `py/`, `pip-tools/` directories (each a no-op when absent, errors
propagated), schedule self-deletion when the running exe lives inside the app
dir, then remove the shim dir and truncate the `env` file. -/
def uninstallBody (env : UninstallEnv) (fs : FS) : UninstallOut :=
  if fs.appDirExists = false then ⟨Except.ok (), fs⟩
  else if env.canonOk = false then
    ⟨Except.error (Err.message "canonicalize failed"), fs⟩
  else
    -- for entry in dir.flatten() { fs::remove_file(&entry.path()).ok(); }
    let fs1 : FS :=
      if fs.shimDirExists then
        { fs with shimFiles :=
            fs.shimFiles.filter (fun f => env.shimDeleteFails.contains f) }
      else fs
    match remove_dir_all_if_exists fs1.selfDirExists env.removeSelfErr with
    | Except.error e => ⟨Except.error e, fs1⟩
    | Except.ok () =>
      let fs2 : FS := { fs1 with selfDirExists := false }
      match remove_dir_all_if_exists fs2.pyDirExists env.removePyErr with
      | Except.error e => ⟨Except.error e, fs2⟩
      | Except.ok () =>
        let fs3 : FS := { fs2 with pyDirExists := false }
        match remove_dir_all_if_exists fs3.pipToolsDirExists env.removePipToolsErr with
        | Except.error e => ⟨Except.error e, fs3⟩
        | Except.ok () =>
          let fs4 : FS := { fs3 with pipToolsDirExists := false }
          -- if real_exe inside real_app_dir && real_exe.is_file() { self_delete_outside_path? }
          if env.exeInAppDir && env.exeIsFile then
            match env.selfDeleteErr with
            | some e => ⟨Except.error e, fs4⟩
            | none => uninstallTail env fs4
          else uninstallTail env fs4

/-- `uninstall` subcommand: unless `--yes` was passed, ask for confirmation;
a declined confirmation returns `Ok(())` without touching anything. -/
def uninstall (yes : Bool) (env : UninstallEnv) (fs : FS) : UninstallOut :=
  if yes = false then
    match env.confirmAnswer with
    | Except.error e => ⟨Except.error e, fs⟩
    | Except.ok false => ⟨Except.ok (), fs⟩
    | Except.ok true => uninstallBody env fs
  else uninstallBody env fs

structure AutoOut where
  result : Except Err Bool
  fs : FS
  /-- the already-installed check (`app_dir.is_dir() && rye_exe.is_file()`)
  was reached, i.e. the env flag was not treated as set -/
  reachedInstalledCheck : Bool
  /-- trace of the `perform_install` call, when one was made -/
  installTrace : Option InstallTrace
deriving Repr

/-- `auto_self_install`: disabled exactly when `RYE_NO_AUTO_INSTALL` is set
to `"1"`; otherwise, when the app dir exists and the primary `shims/rye`
binary is already a file, return `false` without installing; otherwise run
`perform_install` in `AutoInstall` mode with `RYE_TOOLCHAIN` pre-registered. -/
def auto_self_install (noAutoInstallVar : Option String)
    (toolchainVar : Option String) (env : InstallEnv) (fs : FS) : AutoOut :=
  if noAutoInstallVar = some "1" then ⟨Except.ok false, fs, false, none⟩
  else if fs.appDirExists && fs.ryeShimIsFile then
    ⟨Except.ok false, fs, true, none⟩
  else
    let out := perform_install InstallMode.AutoInstall toolchainVar env fs
    match out.result with
    | Except.error e => ⟨Except.error e, out.fs, true, some out.trace⟩
    | Except.ok () => ⟨Except.ok true, out.fs, true, some out.trace⟩

/-! ### Concrete sample states and environments -/

/-- A fully installed application directory. -/
def fsInstalled : FS :=
  { appDirExists := true, shimDirExists := true,
    shimFiles := ["rye", "python", "python3"],
    ryeShimIsFile := true, ryeShimBytes := some [1, 2, 3],
    selfDirExists := true, pyDirExists := true, pipToolsDirExists := true,
    envFile := some "# rye shell setup", primaryBinary := [1, 2, 3] }

/-- A machine with no rye state at all. -/
def fsEmpty : FS :=
  { appDirExists := false, shimDirExists := false, shimFiles := [],
    ryeShimIsFile := false, ryeShimBytes := none,
    selfDirExists := false, pyDirExists := false, pipToolsDirExists := false,
    envFile := none, primaryBinary := [1, 2, 3] }

/-- Install effects where everything succeeds and the user confirms. -/
def ienvYes : InstallEnv :=
  { confirmAnswer := Except.ok true, createDirOk := true,
    removeTargetErr := none, copyErr := none, ryeHomeVar := none,
    writeEnvErr := none, registerToolchainResult := Except.ok "cpython@3.11.1",
    ensureSelfVenvResult := Except.ok "self-venv", pathHasShims := false }

/-- Same, but the user declines the confirmation prompt. -/
def ienvDecline : InstallEnv := { ienvYes with confirmAnswer := Except.ok false }

/-- Uninstall effects where everything succeeds and the user confirms. -/
def uenvYes : UninstallEnv :=
  { confirmAnswer := Except.ok true, canonOk := true, shimDeleteFails := [],
    removeSelfErr := none, removePyErr := none, removePipToolsErr := none,
    exeInAppDir := false, exeIsFile := false, selfDeleteErr := none,
    removeShimsDirErr := none, truncateEnvErr := none }

/-- Same, but the user declines the confirmation prompt. -/
def uenvDecline : UninstallEnv := { uenvYes with confirmAnswer := Except.ok false }

/-- Same as `uenvYes`, but `fs::remove_dir_all` on `self/` fails. -/
def uenvSelfRemoveFails : UninstallEnv :=
  { uenvYes with removeSelfErr := some (Err.message "permission denied") }

/-- Update effects where every step succeeds and the checksum sidecar
request reports 404-style not-found. -/
def updEnvNoSidecar : UpdateEnv :=
  { currentExeOk := true,
    downloadUrl := fun _ => Except.ok [10, 11],
    downloadUrlIgnore404 := fun _ => Except.ok none,
    utf8Lossy := fun _ => "",
    sha256Hex := fun _ => "aa",
    tempFileOk := true,
    gzDecode := fun _ => Except.ok [20, 21],
    tmpWriteOk := true,
    appDirCanonOk := true, currentExeCanonOk := true,
    canonicalExe := "/home/user/.rye/shims/rye",
    selfReplaceOk := true, updateCoreShimsOk := true, versionCmdOk := true }

/-- Update effects where a sidecar checksum is obtained but does not match
the payload's digest. -/
def updEnvMismatch : UpdateEnv :=
  { updEnvNoSidecar with
    downloadUrlIgnore404 := fun _ => Except.ok (some [1]),
    utf8Lossy := fun _ => "deadbeef  rye-x86_64-linux.gz\n",
    sha256Hex := fun _ => "cafe" }

/-! ### Helper lemmas -/

/-- `installBody` never touches the trace it is given. -/
theorem installBody_trace (tc : Option String) (env : InstallEnv) (fs : FS)
    (tr : InstallTrace) : (installBody tc env fs tr).trace = tr := by
  unfold installBody installFinish
  dsimp only
  repeat' split
  all_goals rfl

/-- When canonicalization and `self_replace` succeed, `update_exe_and_shims`
leaves the new bytes in the primary binary and records the invocation. -/
theorem update_exe_and_shims_replaced (nb : List Nat) (env : UpdateEnv)
    (fs : FS)
    (hc1 : env.appDirCanonOk = true) (hc2 : env.currentExeCanonOk = true)
    (hsr : env.selfReplaceOk = true) :
    (update_exe_and_shims nb env fs).fs.primaryBinary = nb ∧
    (update_exe_and_shims nb env fs).trace.selfReplaceInvoked = true := by
  unfold update_exe_and_shims
  rw [if_neg (show ¬(env.appDirCanonOk = false) by rw [hc1]; decide),
    if_neg (show ¬(env.currentExeCanonOk = false) by rw [hc2]; decide)]
  dsimp only
  rw [if_neg (show ¬(env.selfReplaceOk = false) by rw [hsr]; decide)]
  split
  · split <;> exact ⟨rfl, rfl⟩
  · exact ⟨rfl, rfl⟩

/-- Removing an absent directory is a no-op success whatever the injected
filesystem outcome. -/
theorem remove_dir_all_if_exists_absent (r : Option Err) :
    remove_dir_all_if_exists false r = Except.ok () := rfl

/-- Removing a directory whose `remove_dir_all` succeeds is a success. -/
theorem remove_dir_all_if_exists_none (d : Bool) :
    remove_dir_all_if_exists d none = Except.ok () := by
  cases d <;> rfl

/-! ### C9 / C10: auto_self_install -/

/-- C9: auto-installation is disabled only when `RYE_NO_AUTO_INSTALL` is set
to exactly `"1"`; for every other value (including `"true"`, `"0"`, the empty
string, or the variable being unset) `auto_self_install` does not treat the
flag as set and proceeds to the installed-check. -/
theorem auto_self_install_disabled_only_by_one
    (v tc : Option String) (env : InstallEnv) (fs : FS)
    (h : v ≠ some "1") :
    (auto_self_install v tc env fs).reachedInstalledCheck = true := by
  unfold auto_self_install
  rw [if_neg h]
  split
  · rfl
  · dsimp only
    split <;> rfl

theorem auto_self_install_disabled_only_by_one_witness :
    (auto_self_install (some "0") none ienvYes fsInstalled).reachedInstalledCheck
      = true :=
  auto_self_install_disabled_only_by_one (some "0") none ienvYes fsInstalled
    (by decide)

/-- C10: when the application directory exists and the primary shim binary
`shims/rye` is already a file, `auto_self_install` returns `false`, performs
no installation, and leaves all managed state unchanged. -/
theorem auto_self_install_already_installed
    (v tc : Option String) (env : InstallEnv) (fs : FS)
    (h1 : fs.appDirExists = true) (h2 : fs.ryeShimIsFile = true) :
    (auto_self_install v tc env fs).result = Except.ok false ∧
    (auto_self_install v tc env fs).fs = fs ∧
    (auto_self_install v tc env fs).installTrace = none := by
  unfold auto_self_install
  by_cases hv : v = some "1"
  · rw [if_pos hv]; exact ⟨rfl, rfl, rfl⟩
  · rw [if_neg hv, h1, h2]
    exact ⟨rfl, rfl, rfl⟩

theorem auto_self_install_already_installed_witness :
    (auto_self_install none none ienvYes fsInstalled).result = Except.ok false ∧
    (auto_self_install none none ienvYes fsInstalled).fs = fsInstalled ∧
    (auto_self_install none none ienvYes fsInstalled).installTrace = none :=
  auto_self_install_already_installed none none ienvYes fsInstalled rfl rfl

/-! ### C3: uninstall with confirmation declined -/

/-- C3 counterexample: declining the uninstall confirmation removes no files,
but the flow returns plain success (`Ok(())`, mapped to exit code 0), not the
quiet-cancel signal `QuietExit(1)` that the claim asserts. -/
theorem uninstall_declined_not_quiet_exit :
    (uninstall false uenvDecline fsInstalled).result = Except.ok () ∧
    (uninstall false uenvDecline fsInstalled).result ≠
      Except.error (Err.quietExit 1) ∧
    (uninstall false uenvDecline fsInstalled).fs = fsInstalled := by
  refine ⟨rfl, fun h => ?_, rfl⟩
  rw [show (uninstall false uenvDecline fsInstalled).result = Except.ok ()
    from rfl] at h
  exact Except.noConfusion h

/-- C3 amended: for every uninstall invocation where the interactive
confirmation is declined, no files are removed and the flow terminates with
ordinary success (`Ok(())`), not with the quiet-cancel signal. -/
theorem uninstall_declined_noop_success (env : UninstallEnv) (fs : FS)
    (h : env.confirmAnswer = Except.ok false) :
    (uninstall false env fs).result = Except.ok () ∧
    (uninstall false env fs).fs = fs := by
  unfold uninstall
  rw [if_pos rfl, h]
  exact ⟨rfl, rfl⟩

theorem uninstall_declined_noop_success_witness :
    (uninstall false uenvDecline fsInstalled).result = Except.ok () ∧
    (uninstall false uenvDecline fsInstalled).fs = fsInstalled :=
  uninstall_declined_noop_success uenvDecline fsInstalled rfl

/-! ### C4: which install modes bypass the confirmation prompt -/

/-- C4 counterexample: in the auto-detected first-run mode (`AutoInstall`)
the installer still puts the "Continue?" confirmation to the user — the
prompt is consulted, and a declining user cancels the auto-installation. -/
theorem autoinstall_prompt_shown :
    (perform_install InstallMode.AutoInstall none ienvDecline
        fsEmpty).trace.promptShown = true ∧
    (perform_install InstallMode.AutoInstall none ienvDecline fsEmpty).result =
      Except.error (Err.quietExit 1) :=
  ⟨rfl, rfl⟩

/-- C4 amended: the confirmation prompt is bypassed exactly in the
non-interactive `NoPrompts` mode; in `Default` and `AutoInstall` mode the
prompt is consulted (the latter additionally prints the auto-install
context block). -/
theorem perform_install_prompt_iff_not_noprompts (mode : InstallMode)
    (tc : Option String) (env : InstallEnv) (fs : FS) :
    ((perform_install mode tc env fs).trace.promptShown = false ↔
      mode = InstallMode.NoPrompts) ∧
    ((perform_install mode tc env fs).trace.autoContextShown = true ↔
      mode = InstallMode.AutoInstall) := by
  have hb := installBody_trace tc env fs
  cases mode
  case NoPrompts =>
    unfold perform_install
    rw [hb]
    simp
  case Default =>
    unfold perform_install
    dsimp only
    rcases hc : env.confirmAnswer with e | b
    · simp
    · cases b
      · simp
      · rw [hb]; simp
  case AutoInstall =>
    unfold perform_install
    dsimp only
    rcases hc : env.confirmAnswer with e | b
    · simp
    · cases b
      · simp
      · rw [hb]; simp

/-! ### C5: declining the install confirmation -/

/-- C5: whenever the confirmation prompt is shown (any mode other than
`NoPrompts`) and the user declines, `perform_install` terminates with the
distinguished quiet-exit signal `QuietExit(1)` — not an ordinary error — and
performs none of the installation steps: the filesystem is unchanged. -/
theorem install_declined_quiet_exit (mode : InstallMode) (tc : Option String)
    (env : InstallEnv) (fs : FS)
    (hmode : mode ≠ InstallMode.NoPrompts)
    (hconf : env.confirmAnswer = Except.ok false) :
    (perform_install mode tc env fs).trace.promptShown = true ∧
    (perform_install mode tc env fs).result = Except.error (Err.quietExit 1) ∧
    (perform_install mode tc env fs).fs = fs := by
  cases mode
  case NoPrompts => exact absurd rfl hmode
  case Default =>
    unfold perform_install
    rw [hconf]
    exact ⟨rfl, rfl, rfl⟩
  case AutoInstall =>
    unfold perform_install
    rw [hconf]
    exact ⟨rfl, rfl, rfl⟩

theorem install_declined_quiet_exit_witness :
    (perform_install InstallMode.Default none ienvDecline
        fsEmpty).trace.promptShown = true ∧
    (perform_install InstallMode.Default none ienvDecline fsEmpty).result =
      Except.error (Err.quietExit 1) ∧
    (perform_install InstallMode.Default none ienvDecline fsEmpty).fs =
      fsEmpty :=
  install_declined_quiet_exit InstallMode.Default none ienvDecline fsEmpty
    (by decide) rfl

/-! ### C6: which uninstall cleanup errors are swallowed -/

/-- C6 counterexample: a filesystem error while recursively removing the
`self/` subdirectory is NOT swallowed — it aborts the uninstall flow with
that very error, contradicting the claim that errors in these cleanup steps
never abort. -/
theorem uninstall_dir_removal_error_aborts :
    (uninstall true uenvSelfRemoveFails fsInstalled).result =
      Except.error (Err.message "permission denied") := rfl

/-- C6 amended: during uninstall, errors deleting the individual files
inside the shim directory are swallowed and never abort the flow (first
conjunct: any set of failing shim deletions still ends in success); each of
the `self/`, `py/`, `pip-tools/` removals is a no-op when the directory is
absent (second conjunct); but a filesystem error in those recursive
directory removals propagates and aborts the flow (third conjunct). -/
theorem uninstall_best_effort_split :
    (∀ (env : UninstallEnv) (fs : FS),
      env.canonOk = true →
      env.removeSelfErr = none → env.removePyErr = none →
      env.removePipToolsErr = none → env.selfDeleteErr = none →
      env.removeShimsDirErr = none → env.truncateEnvErr = none →
      (uninstall true env fs).result = Except.ok ()) ∧
    (∀ r : Option Err, remove_dir_all_if_exists false r = Except.ok ()) ∧
    (∀ (env : UninstallEnv) (fs : FS) (e : Err),
      fs.appDirExists = true → fs.selfDirExists = true → env.canonOk = true →
      env.removeSelfErr = some e →
      (uninstall true env fs).result = Except.error e) := by
  refine ⟨?_, fun r => rfl, ?_⟩
  · intro env fs hcanon h1 h2 h3 h4 h5 h6
    unfold uninstall uninstallBody uninstallTail
    rw [if_neg (show ¬(true = false) by decide)]
    by_cases happ : fs.appDirExists = false
    · rw [if_pos happ]
    · rw [if_neg happ, if_neg (show ¬(env.canonOk = false) by rw [hcanon]; decide)]
      dsimp only
      rw [h1, h2, h3, h4, h5, h6]
      simp [remove_dir_all_if_exists_none]
  · intro env fs e happ hself hcanon herr
    unfold uninstall uninstallBody
    rw [if_neg (show ¬(true = false) by decide),
      if_neg (show ¬(fs.appDirExists = false) by rw [happ]; decide),
      if_neg (show ¬(env.canonOk = false) by rw [hcanon]; decide)]
    dsimp only
    rw [herr, show (if fs.shimDirExists = true then
        { fs with shimFiles :=
            fs.shimFiles.filter (fun f => env.shimDeleteFails.contains f) }
        else fs).selfDirExists = true from by split <;> exact hself]
    rfl

theorem uninstall_best_effort_split_witness :
    (uninstall true
        { uenvYes with shimDeleteFails := ["rye", "python"] }
        fsInstalled).result = Except.ok () ∧
    remove_dir_all_if_exists false (some (Err.message "busy")) = Except.ok () ∧
    (uninstall true uenvSelfRemoveFails fsInstalled).result =
      Except.error (Err.message "permission denied") :=
  ⟨uninstall_best_effort_split.1 _ fsInstalled rfl rfl rfl rfl rfl rfl rfl,
   uninstall_best_effort_split.2.1 _,
   uninstall_best_effort_split.2.2 uenvSelfRemoveFails fsInstalled _ rfl rfl rfl rfl⟩

/-! ### C7: shim synchronisation ordering in update_exe_and_shims -/

/-- C7: shim synchronisation (`update_core_shims`) runs only after
`self_replace` has been invoked and has succeeded (first conjunct, which also
records that the primary binary already holds the new bytes); it is skipped
entirely when the shim directory does not exist (second conjunct); and when
the shim directory exists and self-replace succeeds, the shims are pointed at
the canonical executable path captured before the replacement (third
conjunct). -/
theorem update_exe_and_shims_spec (nb : List Nat) (env : UpdateEnv) (fs : FS) :
    ((update_exe_and_shims nb env fs).trace.shimSyncTarget ≠ none →
      (update_exe_and_shims nb env fs).trace.selfReplaceInvoked = true ∧
      env.selfReplaceOk = true ∧
      (update_exe_and_shims nb env fs).fs.primaryBinary = nb) ∧
    (fs.shimDirExists = false →
      (update_exe_and_shims nb env fs).trace.shimSyncTarget = none) ∧
    (fs.shimDirExists = true → env.appDirCanonOk = true →
      env.currentExeCanonOk = true → env.selfReplaceOk = true →
      (update_exe_and_shims nb env fs).trace.shimSyncTarget =
        some env.canonicalExe ∧
      (update_exe_and_shims nb env fs).fs.primaryBinary = nb) := by
  unfold update_exe_and_shims
  cases hap : env.appDirCanonOk <;> cases hce : env.currentExeCanonOk <;>
    cases hsr : env.selfReplaceOk <;> cases hsd : fs.shimDirExists <;>
    cases hsh : env.updateCoreShimsOk <;>
    simp_all

theorem update_exe_and_shims_spec_witness :
    ((update_exe_and_shims [9, 9] updEnvNoSidecar
        fsInstalled).trace.shimSyncTarget ≠ none →
      (update_exe_and_shims [9, 9] updEnvNoSidecar
        fsInstalled).trace.selfReplaceInvoked = true ∧
      updEnvNoSidecar.selfReplaceOk = true ∧
      (update_exe_and_shims [9, 9] updEnvNoSidecar
        fsInstalled).fs.primaryBinary = [9, 9]) ∧
    ((update_exe_and_shims [9, 9] updEnvNoSidecar
        fsInstalled).trace.shimSyncTarget = some "/home/user/.rye/shims/rye" ∧
      (update_exe_and_shims [9, 9] updEnvNoSidecar
        fsInstalled).fs.primaryBinary = [9, 9]) :=
  ⟨(update_exe_and_shims_spec [9, 9] updEnvNoSidecar fsInstalled).1,
   (update_exe_and_shims_spec [9, 9] updEnvNoSidecar fsInstalled).2.2
     rfl rfl rfl rfl⟩

/-! ### C1: checksum mismatch aborts the update before any replacement -/

/-- C1: whenever a sidecar checksum is obtained and the downloaded payload's
hash does not equal it after whitespace/case normalization, the update fails
hard before any replacement: `self_replace` is never invoked and the on-disk
state — in particular the primary binary — is byte-identical to the state
before the attempt. -/
theorem update_checksum_mismatch_aborts (version : String) (env : UpdateEnv)
    (fs : FS) (bytes sb : List Nat)
    (hexe : env.currentExeOk = true)
    (hdl : env.downloadUrl (releaseUrl version) = Except.ok bytes)
    (hsha : env.downloadUrlIgnore404 (sha256Url version) =
      Except.ok (some sb))
    (hmismatch : lowerString (env.sha256Hex bytes) ≠
      lowerString (firstToken (trimString (env.utf8Lossy sb)))) :
    (∃ e, (update version env fs).result = Except.error e) ∧
    (update version env fs).trace.rep.selfReplaceInvoked = false ∧
    (update version env fs).fs = fs := by
  unfold update
  rw [if_neg (show ¬(env.currentExeOk = false) by rw [hexe]; decide)]
  dsimp only
  rw [hdl, hsha]
  dsimp only
  unfold check_checksum
  rw [if_neg hmismatch]
  exact ⟨⟨_, rfl⟩, rfl, rfl⟩

theorem update_checksum_mismatch_aborts_witness :
    (∃ e, (update "latest" updEnvMismatch fsInstalled).result =
      Except.error e) ∧
    (update "latest" updEnvMismatch fsInstalled).trace.rep.selfReplaceInvoked
      = false ∧
    (update "latest" updEnvMismatch fsInstalled).fs = fsInstalled :=
  update_checksum_mismatch_aborts "latest" updEnvMismatch fsInstalled
    [10, 11] [1] rfl rfl rfl (by decide)

/-! ### C2: 404 on the checksum sidecar is a soft failure -/

/-- C2: when the sidecar checksum URL reports a 404-style not-found while the
main asset downloads successfully, the update proceeds unverified: the
"checksum check skipped" warning is emitted, `check_checksum` is never
invoked, and — the remaining steps succeeding — `self_replace` runs and the
primary binary on disk holds the new (decompressed) payload. -/
theorem update_404_sidecar_proceeds (version : String) (env : UpdateEnv)
    (fs : FS) (bytes decoded : List Nat)
    (hexe : env.currentExeOk = true)
    (hdl : env.downloadUrl (releaseUrl version) = Except.ok bytes)
    (hsha : env.downloadUrlIgnore404 (sha256Url version) = Except.ok none)
    (htmp : env.tempFileOk = true)
    (hgz : env.gzDecode bytes = Except.ok decoded)
    (hw : env.tmpWriteOk = true)
    (hc1 : env.appDirCanonOk = true) (hc2 : env.currentExeCanonOk = true)
    (hsr : env.selfReplaceOk = true) :
    (update version env fs).trace.checksumSkippedMsg = true ∧
    (update version env fs).trace.checksumChecked = false ∧
    (update version env fs).trace.rep.selfReplaceInvoked = true ∧
    (update version env fs).fs.primaryBinary = decoded := by
  have hrep := update_exe_and_shims_replaced decoded env fs hc1 hc2 hsr
  unfold update updateFinish
  rw [if_neg (show ¬(env.currentExeOk = false) by rw [hexe]; decide)]
  dsimp only
  rw [hdl, hsha]
  dsimp only
  rw [if_neg (show ¬(env.tempFileOk = false) by rw [htmp]; decide), hgz]
  dsimp only
  rw [if_neg (show ¬(env.tmpWriteOk = false) by rw [hw]; decide)]
  try dsimp only
  split
  · exact ⟨rfl, rfl, hrep.2, hrep.1⟩
  · split <;> exact ⟨rfl, rfl, hrep.2, hrep.1⟩

theorem update_404_sidecar_proceeds_witness :
    (update "latest" updEnvNoSidecar fsInstalled).trace.checksumSkippedMsg
      = true ∧
    (update "latest" updEnvNoSidecar fsInstalled).trace.checksumChecked
      = false ∧
    (update "latest" updEnvNoSidecar
      fsInstalled).trace.rep.selfReplaceInvoked = true ∧
    (update "latest" updEnvNoSidecar fsInstalled).fs.primaryBinary = [20, 21] :=
  update_404_sidecar_proceeds "latest" updEnvNoSidecar fsInstalled
    [10, 11] [20, 21] rfl rfl rfl rfl rfl rfl rfl rfl rfl

/-! ### C8: the generated environment-sourcing script -/

/-- Strings differing in their first two characters are different. -/
theorem string_ne_of_take_two_ne (a b : String)
    (h : a.data.take 2 ≠ b.data.take 2) : a ≠ b :=
  fun he => h (by rw [he])

/-- The first two characters of an append come from a long-enough prefix. -/
theorem take_two_append (a b : String) (h : 2 ≤ a.data.length) :
    (a ++ b).data.take 2 = a.data.take 2 :=
  List.take_append_of_le_length h

/-- The first two characters of a double append come from a long-enough
leftmost part. -/
theorem take_two_append_left (a b c : String) (h : 2 ≤ a.data.length) :
    (a ++ b ++ c).data.take 2 = a.data.take 2 := by
  have h2 : 2 ≤ (a ++ b).data.length := by
    rw [show (a ++ b).data = a.data ++ b.data from rfl, List.length_append]
    omega
  rw [take_two_append _ _ h2, take_two_append _ _ h]

/-- C8: the environment-sourcing script, as a pure function of
`(custom_home, rye_home)`, contains the explicit `export RYE_HOME` line if
and only if the root is user-overridden (`custom_home = true`), and in every
case contains — in order — the `case`-guard block that leaves `PATH`
untouched when the shim directory is already present and prepends it
otherwise; the rendered script is exactly these lines joined by newlines. -/
theorem unix_env_file_export_iff_and_guard (c : Bool) (home : String) :
    (("export RYE_HOME=\"" ++ home ++ "\"") ∈ unixEnvFileLines c home ↔
      c = true) ∧
    List.Sublist (pathGuardLines home) (unixEnvFileLines c home) ∧
    render_unix_env_file c home =
      String.intercalate "\n" (unixEnvFileLines c home) := by
  refine ⟨⟨?_, ?_⟩, ?_, rfl⟩
  · intro hmem
    cases c
    · exfalso
      simp only [unixEnvFileLines, pathGuardLines, if_false, Bool.false_eq_true,
        List.cons_append, List.nil_append, List.mem_cons, List.not_mem_nil,
        or_false] at hmem
      rcases hmem with h | h | h | h | h | h | h | h | h | h <;>
        refine string_ne_of_take_two_ne _ _ ?_ h <;>
        rw [take_two_append_left "export RYE_HOME=\"" home "\"" (by decide)]
      all_goals
        try rw [take_two_append_left "  *:\"" home "/shims\":*)" (by decide)]
      all_goals
        try rw [take_two_append_left "    export PATH=\"" home
          "/shims:$PATH\"" (by decide)]
      all_goals decide
    · rfl
  · intro hc
    subst hc
    simp [unixEnvFileLines]
  · unfold unixEnvFileLines
    rw [List.append_assoc]
    exact List.Sublist.trans (List.sublist_append_left _ _)
      (List.sublist_append_right _ _)

end Rye
